import Mathlib

/-!
Verification of the nvdiffrast PyTorch wrapper layer
(`nvdiffrast/torch/ops.py`).

The wrapper dispatches to opaque native plugin kernels.  We embed the
control flow of the wrapper shallowly: tensors and plugin handles are symbolic
values, a successful call evaluates to a descriptor of the exact plugin
invocation the wrapper would make (which stub, which arguments), and a
failed assertion evaluates to `Except.error`.  The native kernels
themselves are out of scope; where the wrapper relies on one (mipmap
construction), it is modelled as a deterministic function of its
arguments, recording them.
-/

/-- A symbolic GPU tensor; identity only, contents opaque. -/
structure Tensor where
  id : Nat
deriving DecidableEq, Repr

/-- A Python object as it can appear in a duck-typed argument slot:
either a torch tensor or some non-tensor object. -/
inductive PyObj where
  | tensor (t : Tensor)
  | other (n : Nat)
deriving DecidableEq, Repr

/-- Result of `isinstance(x, torch.Tensor)` on an optional argument: `None` and
non-tensor objects fail the check. -/
def isTensorOpt : Option PyObj → Bool
  | some (PyObj.tensor _) => true
  | _ => false

/-- Texture filter modes accepted by `texture()` (string-valued in the
source). -/
inductive FilterMode where
  | auto
  | nearest
  | linear
  | linearMipmapNearest
  | linearMipmapLinear
deriving DecidableEq, Repr

/-- The Python substring test (mipmap in filter_mode) on the mode strings. -/
def FilterMode.hasMipmapSubstr : FilterMode → Bool
  | FilterMode.linearMipmapNearest => true
  | FilterMode.linearMipmapLinear => true
  | _ => false

/-- The filter mode dict of line 417: nearest 0, linear 1,
linear-mipmap-nearest 2, linear-mipmap-linear 3; lookup of a key not in
the dict (only `auto` could be) is a `KeyError`, hence `Option`. -/
def filterEnum : FilterMode → Option Nat
  | FilterMode.auto => none
  | FilterMode.nearest => some 0
  | FilterMode.linear => some 1
  | FilterMode.linearMipmapNearest => some 2
  | FilterMode.linearMipmapLinear => some 3

/-- Texture boundary modes accepted by `texture()`. -/
inductive BoundaryMode where
  | cube
  | wrap
  | clamp
  | zero
deriving DecidableEq, Repr

/-- The boundary mode dict of line 421: cube 0, wrap 1, clamp 2, zero 3. -/
def boundaryEnum : BoundaryMode → Nat
  | BoundaryMode.cube => 0
  | BoundaryMode.wrap => 1
  | BoundaryMode.clamp => 2
  | BoundaryMode.zero => 3

/-- The Python comparison of `boundary_mode` with the cube string. -/
def BoundaryMode.isCube : BoundaryMode → Bool
  | BoundaryMode.cube => true
  | _ => false

/-- Modelled from the spec: the native `texture_construct_mip` plugin entry
point (its implementation lives in the CUDA/C++ sources, not in the wrapper
file).  Per the spec it deterministically "builds the pyramid by repeated
2x2 box averaging until a single-texel level is reached or max_level levels
exist" and "returns an immutable handle"; we model the handle as an opaque
record of the construction inputs. -/
structure TextureMipWrapper where
  tex : Tensor
  max_mip_level : Int
  cube : Bool
deriving DecidableEq, Repr

/-- Modelled from the spec: invoking the native mipmap constructor is a
pure function of texture, level cap and cube flag. -/
def plugin_texture_construct_mip (tex : Tensor) (max_mip_level : Int)
    (cube : Bool) : TextureMipWrapper :=
  ⟨tex, max_mip_level, cube⟩

/-- Line 397-398 of the wrapper: `auto` resolves to
`linear-mipmap-linear` when `uv_da` is supplied, else to `linear`. -/
def resolve_auto (filter_mode : FilterMode) (uv_da : Option PyObj) :
    FilterMode :=
  if filter_mode = FilterMode.auto then
    (if uv_da.isSome then FilterMode.linearMipmapLinear else FilterMode.linear)
  else filter_mode

/-- Lines 401-405: sanitize `max_mip_level` (`None` becomes `-1`; an
explicit value must be nonnegative). -/
def sanitize_max_mip_level (max_mip_level : Option Int) : Except String Int :=
  match max_mip_level with
  | none => Except.ok (-1)
  | some v =>
      if 0 ≤ v then Except.ok v
      else Except.error "texture: assert max_mip_level >= 0"

/-- Descriptor of the autograd stub (plugin forward invocation) that
`texture()` ends up applying: either the mipmap stub
`_texture_func_mip.apply(filter_mode, tex, uv, uv_da, mip, enum, enum)` or
the plain stub `_texture_func.apply(filter_mode, tex, uv, enum, enum)`. -/
inductive TexCall where
  | mip (filter_mode : FilterMode) (tex uv : Tensor) (uv_da : Option PyObj)
        (m : Option TextureMipWrapper) (filter_enum boundary_enum : Nat)
  | basic (filter_mode : FilterMode) (tex uv : Tensor)
        (filter_enum boundary_enum : Nat)
deriving DecidableEq, Repr

/-- Lines 407-435 of the `texture()` wrapper, after the `auto` resolution
and the `max_mip_level` sanitization: the `uv_da` check, the
max-level-zero degrade, enum conversion, transient mipmap construction,
and stub choice, in source order.  `fm1` is the already-resolved filter
mode and `mml` the already-sanitized level cap. -/
def texture_core (tex uv : Tensor) (uv_da : Option PyObj)
    (mip : Option TextureMipWrapper) (fm1 : FilterMode)
    (boundary_mode : BoundaryMode) (mml : Int) : Except String TexCall :=
  if fm1.hasMipmapSubstr && !(isTensorOpt uv_da) then
    Except.error "texture: assert isinstance uv_da torch.Tensor"
  else
    let fm2 :=
      if mml = 0 ∧ (fm1 = FilterMode.linearMipmapNearest ∨
          fm1 = FilterMode.linearMipmapLinear) then
        FilterMode.linear
      else fm1
    match filterEnum fm2 with
    | none => Except.error "texture: KeyError filter_mode"
    | some fme =>
      let bme := boundaryEnum boundary_mode
      let mip2 :=
        if fm2.hasMipmapSubstr then
          (match mip with
           | some m => some m
           | none =>
               some (plugin_texture_construct_mip tex mml
                 boundary_mode.isCube))
        else mip
      if fm2 = FilterMode.linearMipmapLinear ∨
          fm2 = FilterMode.linearMipmapNearest then
        Except.ok (TexCall.mip fm2 tex uv uv_da mip2 fme bme)
      else
        Except.ok (TexCall.basic fm2 tex uv fme bme)

/-- The `texture()` op wrapper, lines 357-435: `auto` resolution and
`max_mip_level` sanitization, then the rest of the body
(`texture_core`). -/
def texture (tex uv : Tensor) (uv_da : Option PyObj)
    (mip : Option TextureMipWrapper) (filter_mode : FilterMode)
    (boundary_mode : BoundaryMode) (max_mip_level : Option Int) :
    Except String TexCall :=
  match sanitize_max_mip_level max_mip_level with
  | Except.error e => Except.error e
  | Except.ok mml =>
      texture_core tex uv uv_da mip (resolve_auto filter_mode uv_da)
        boundary_mode mml

/-- The `texture_construct_mip()` wrapper, lines 438-461: sanitizes
`max_mip_level` the same way `texture()` does and hands off to the native
constructor. -/
def texture_construct_mip (tex : Tensor) (max_mip_level : Option Int)
    (cube_mode : Bool) : Except String TextureMipWrapper :=
  match sanitize_max_mip_level max_mip_level with
  | Except.error _ =>
      Except.error "texture_construct_mip: assert max_mip_level >= 0"
  | Except.ok mml => Except.ok (plugin_texture_construct_mip tex mml cube_mode)

/-- OpenGL context handling mode fixed at construction. -/
inductive CtxMode where
  | automatic
  | manual
deriving DecidableEq, Repr

/-- The `RasterizeGLContext` object as far as the Python wrapper tracks it: the
`output_db` flag and the handling mode. -/
structure RasterizeGLContext where
  output_db : Bool
  mode : CtxMode
deriving DecidableEq, Repr

/-- Method `RasterizeGLContext.set_context`, lines 144-149: asserts manual mode,
then forwards to the C++ wrapper. -/
def RasterizeGLContext.set_context (c : RasterizeGLContext) :
    Except String Unit :=
  if c.mode = CtxMode.manual then Except.ok ()
  else Except.error "set_context: assert mode == manual"

/-- Method `RasterizeGLContext.release_context`, lines 151-156: asserts manual
mode, then forwards to the C++ wrapper. -/
def RasterizeGLContext.release_context (c : RasterizeGLContext) :
    Except String Unit :=
  if c.mode = CtxMode.manual then Except.ok ()
  else Except.error "release_context: assert mode == manual"

/-- The `ranges` argument after sanitization, line 217-220: `None` is
replaced by an empty CPU int32 tensor of shape [0, 2]. -/
inductive RangesVal where
  | emptyDefault
  | given (t : Tensor)
deriving DecidableEq, Repr

/-- Descriptor of the `_rasterize_func.apply(glctx, pos, tri, resolution,
ranges, grad_db)` invocation produced by `rasterize()`, lines 180-223; in
particular `grad_db` is the already-downgraded flag of line 212. -/
structure RastApply where
  glctx : RasterizeGLContext
  pos : Tensor
  tri : Tensor
  resolution : List Int
  ranges : RangesVal
  grad_db : Bool
deriving DecidableEq, Repr

/-- The `rasterize()` op wrapper, lines 180-223: downgrades `grad_db` by
the `output_db` flag of the context, sanitizes `ranges`, and applies the autograd
stub. -/
def rasterize (glctx : RasterizeGLContext) (pos tri : Tensor)
    (resolution : List Int) (ranges : Option Tensor) (grad_db : Bool) :
    RastApply :=
  let grad_db2 := grad_db && glctx.output_db
  let ranges2 :=
    match ranges with
    | none => RangesVal.emptyDefault
    | some t => RangesVal.given t
  ⟨glctx, pos, tri, resolution, ranges2, grad_db2⟩

/-- State saved by `_rasterize_func.forward` for the backward pass, lines
166-167: `ctx.save_for_backward(pos, tri, out)` and
`ctx.saved_grad_db = grad_db`. -/
structure RastSaved where
  pos : Tensor
  tri : Tensor
  out : Tensor
  saved_grad_db : Bool
deriving DecidableEq, Repr

/-- A gradient tensor produced by a backward pass: an opaque native
gradient-kernel output, possibly scalar-scaled by the wrapper. -/
inductive GradTensor where
  | pluginRastGrad (pos tri out dy : Tensor)
  | pluginRastGradDb (pos tri out dy ddb : Tensor)
  | pluginAAColor (color rast pos tri dy work_buffer : Tensor)
  | pluginAAPos (color rast pos tri dy work_buffer : Tensor)
  | scale (k : ℚ) (g : GradTensor)
deriving DecidableEq, Repr

/-- The gradient 6-tuple returned by `_rasterize_func.backward`, one slot
per forward argument `(glctx, pos, tri, resolution, ranges, grad_db)`;
`None` is `Option.none`. -/
structure RastGrads where
  g_glctx : Option GradTensor
  g_pos : Option GradTensor
  g_tri : Option GradTensor
  g_resolution : Option GradTensor
  g_ranges : Option GradTensor
  g_grad_db : Option GradTensor
deriving DecidableEq, Repr

/-- Function `_rasterize_func.backward`, lines 170-177: chooses the derivative-aware
or plain native gradient kernel by the saved `grad_db` flag and returns
`(None, g_pos, None, None, None, None)`. -/
def rasterize_backward (s : RastSaved) (dy ddb : Tensor) : RastGrads :=
  let g_pos :=
    if s.saved_grad_db then
      GradTensor.pluginRastGradDb s.pos s.tri s.out dy ddb
    else
      GradTensor.pluginRastGrad s.pos s.tri s.out dy
  ⟨none, some g_pos, none, none, none, none⟩

/-- The `diff_attrs` argument of `interpolate()`: absent, the string
`all`, or a list of attribute indices. -/
inductive DiffAttrs where
  | none
  | all
  | list (l : List Int)
deriving DecidableEq, Repr

/-- Lines 291-296: `None` becomes the empty list, `all` is kept, any
other value is flattened to a 1-D int list. -/
def sanitizeDiffAttrs : DiffAttrs → DiffAttrs
  | DiffAttrs.none => DiffAttrs.list []
  | DiffAttrs.all => DiffAttrs.all
  | DiffAttrs.list l => DiffAttrs.list l

/-- Python truthiness of the sanitized `diff_attrs` (`if diff_attrs:`):
the nonempty string `all` is truthy, a list is truthy iff nonempty. -/
def diffAttrsTruthy : DiffAttrs → Bool
  | DiffAttrs.none => false
  | DiffAttrs.all => true
  | DiffAttrs.list l => !l.isEmpty

/-- Descriptor of the autograd stub `interpolate()` applies: the
pixel-differential variant `_interpolate_func_da.apply(attr, rast, tri,
rast_db, diff_attrs_all, diff_attrs_list)` or the plain variant
`_interpolate_func.apply(attr, rast, tri)`. -/
inductive InterpCall where
  | da (attr rast tri rast_db : Tensor) (diff_attrs_all : Nat)
       (diff_attrs_list : List Int)
  | basic (attr rast tri : Tensor)
deriving DecidableEq, Repr

/-- Whether an interpolate stub invocation is the derivative-output
variant. -/
def InterpCall.isDa : InterpCall → Bool
  | InterpCall.da _ _ _ _ _ _ => true
  | InterpCall.basic _ _ _ => false

/-- The `interpolate()` op wrapper, lines 260-310: sanitizes `diff_attrs`,
computes the `diff_attrs_all` flag and the index list, requires `rast_db`
to be a tensor exactly when the selection is truthy, and chooses the
stub. -/
def interpolate (attr rast tri : Tensor) (rast_db : Option Tensor)
    (diff_attrs : DiffAttrs) : Except String InterpCall :=
  let da := sanitizeDiffAttrs diff_attrs
  let diff_attrs_all : Nat := if da = DiffAttrs.all then 1 else 0
  let diff_attrs_list :=
    match da with
    | DiffAttrs.list l => if diff_attrs_all = 1 then [] else l
    | _ => []
  if diffAttrsTruthy da then
    match rast_db with
    | none => Except.error "interpolate: assert isinstance rast_db torch.Tensor"
    | some db =>
        Except.ok (InterpCall.da attr rast tri db diff_attrs_all
          diff_attrs_list)
  else
    Except.ok (InterpCall.basic attr rast tri)

/-- Whether a wrapper call evaluated to a failed assertion instead of a
plugin invocation descriptor. -/
def isErr {α : Type} : Except String α → Bool
  | Except.error _ => true
  | Except.ok _ => false

/-- State saved by `_antialias_func.forward`, lines 471-472:
`save_for_backward(color, rast, pos, tri)` and
`saved_misc = pos_gradient_boost, work_buffer`. -/
structure AASaved where
  color : Tensor
  rast : Tensor
  pos : Tensor
  tri : Tensor
  pos_gradient_boost : ℚ
  work_buffer : Tensor
deriving DecidableEq, Repr

/-- The gradient 6-tuple returned by `_antialias_func.backward`, one slot
per forward argument `(color, rast, pos, tri, topology_hash,
pos_gradient_boost)`. -/
structure AAGrads where
  g_color : Option GradTensor
  g_rast : Option GradTensor
  g_pos : Option GradTensor
  g_tri : Option GradTensor
  g_topology_hash : Option GradTensor
  g_pos_gradient_boost : Option GradTensor
deriving DecidableEq, Repr

/-- Function `_antialias_func.backward`, lines 475-482: runs the native gradient
kernel, scales the position gradient by `pos_gradient_boost` only when the
boost differs from `1.0`, and returns
`(g_color, None, g_pos, None, None, None)`. -/
def antialias_backward (s : AASaved) (dy : Tensor) : AAGrads :=
  let g_color :=
    GradTensor.pluginAAColor s.color s.rast s.pos s.tri dy s.work_buffer
  let g_pos0 :=
    GradTensor.pluginAAPos s.color s.rast s.pos s.tri dy s.work_buffer
  let g_pos :=
    if s.pos_gradient_boost ≠ 1 then
      GradTensor.scale s.pos_gradient_boost g_pos0
    else g_pos0
  ⟨some g_color, none, some g_pos, none, none, none⟩

/-- C1: a call to `texture` with filter mode `auto` behaves exactly as
the same call with filter mode `linear` when `uv_da` is `None`, and
exactly as with filter mode `linear-mipmap-linear` when `uv_da` is
supplied. -/
theorem texture_auto_resolution (tex uv : Tensor) (uv_da : Option PyObj)
    (mip : Option TextureMipWrapper) (bm : BoundaryMode)
    (mml : Option Int) :
    texture tex uv uv_da mip FilterMode.auto bm mml =
      texture tex uv uv_da mip
        (if uv_da.isSome then FilterMode.linearMipmapLinear
         else FilterMode.linear) bm mml := by
  cases uv_da <;> rfl

/-- C2: with `max_mip_level = 0` and a mipmap filter mode (explicit or
reached through `auto` resolution), and `uv_da` passing the tensor check,
`texture` executes the plain (non-mip) stub with filter mode `linear`
(enum 1): no mipmap pyramid is constructed. -/
theorem texture_mip_level_zero_degrades (tex uv : Tensor)
    (uv_da : Option PyObj) (mip : Option TextureMipWrapper)
    (fm : FilterMode) (bm : BoundaryMode)
    (hm : (resolve_auto fm uv_da).hasMipmapSubstr = true)
    (ht : isTensorOpt uv_da = true) :
    texture tex uv uv_da mip fm bm (some 0) =
      Except.ok (TexCall.basic FilterMode.linear tex uv 1 (boundaryEnum bm)) := by
  cases uv_da with
  | none => simp [isTensorOpt] at ht
  | some o =>
    cases o with
    | other n => simp [isTensorOpt] at ht
    | tensor t =>
      cases fm <;>
        simp_all [resolve_auto, FilterMode.hasMipmapSubstr, texture,
          texture_core, sanitize_max_mip_level, filterEnum, isTensorOpt]

/-- Witness for C2 at a concrete input. -/
theorem texture_mip_level_zero_degrades_witness :
    texture ⟨0⟩ ⟨1⟩ (some (PyObj.tensor ⟨2⟩)) none
        FilterMode.linearMipmapLinear BoundaryMode.wrap (some 0) =
      Except.ok (TexCall.basic FilterMode.linear ⟨0⟩ ⟨1⟩ 1
        (boundaryEnum BoundaryMode.wrap)) :=
  texture_mip_level_zero_degrades ⟨0⟩ ⟨1⟩ (some (PyObj.tensor ⟨2⟩)) none
    FilterMode.linearMipmapLinear BoundaryMode.wrap (by decide) (by decide)

/-- C6: the antialias backward pass returns the plugin-computed position
gradient scaled by `pos_gradient_boost`, returned unchanged (the very same
value, no multiply) when the boost is `1.0`, and produces no gradient for
the triangle tensor or the topology hash. -/
theorem antialias_pos_gradient_boost (s : AASaved) (dy : Tensor) :
    (antialias_backward s dy).g_pos =
      some (if s.pos_gradient_boost = 1 then
              GradTensor.pluginAAPos s.color s.rast s.pos s.tri dy
                s.work_buffer
            else
              GradTensor.scale s.pos_gradient_boost
                (GradTensor.pluginAAPos s.color s.rast s.pos s.tri dy
                  s.work_buffer)) ∧
    (antialias_backward s dy).g_tri = none ∧
    (antialias_backward s dy).g_topology_hash = none := by
  refine ⟨?_, rfl, rfl⟩
  by_cases h : s.pos_gradient_boost = 1 <;> simp [antialias_backward, h]

/-- C7: the rasterize backward pass produces a gradient for the positions
input only; the context, triangle tensor, resolution, ranges, and grad_db
slots all receive `None`. -/
theorem rasterize_backward_pos_only (s : RastSaved) (dy ddb : Tensor) :
    (rasterize_backward s dy ddb).g_glctx = none ∧
    (rasterize_backward s dy ddb).g_pos.isSome = true ∧
    (rasterize_backward s dy ddb).g_tri = none ∧
    (rasterize_backward s dy ddb).g_resolution = none ∧
    (rasterize_backward s dy ddb).g_ranges = none ∧
    (rasterize_backward s dy ddb).g_grad_db = none :=
  ⟨rfl, rfl, rfl, rfl, rfl, rfl⟩

/-- C9: on a context constructed in `automatic` mode both `set_context`
and `release_context` fail the mode assertion, while on a context
constructed in `manual` mode both calls are accepted by the wrapper. -/
theorem glcontext_mode_gating (c : RasterizeGLContext) :
    (c.mode = CtxMode.automatic →
      (∃ e, c.set_context = Except.error e) ∧
      (∃ e, c.release_context = Except.error e)) ∧
    (c.mode = CtxMode.manual →
      c.set_context = Except.ok () ∧ c.release_context = Except.ok ()) := by
  refine
    ⟨fun h => ⟨⟨"set_context: assert mode == manual", ?_⟩,
               ⟨"release_context: assert mode == manual", ?_⟩⟩,
     fun h => ⟨?_, ?_⟩⟩ <;>
    simp [RasterizeGLContext.set_context,
      RasterizeGLContext.release_context, h]

/-- Witness for C9 at concrete contexts in each mode. -/
theorem glcontext_mode_gating_witness :
    (∃ e, RasterizeGLContext.set_context ⟨true, CtxMode.automatic⟩ =
      Except.error e) ∧
    RasterizeGLContext.release_context ⟨true, CtxMode.manual⟩ =
      Except.ok () :=
  ⟨((glcontext_mode_gating ⟨true, CtxMode.automatic⟩).1 rfl).1,
   ((glcontext_mode_gating ⟨true, CtxMode.manual⟩).2 rfl).2⟩

/-- C4: on a context constructed with `output_db = False`, `rasterize`
succeeds for either value of `grad_db`, the flag recorded for the backward
pass is downgraded to `False`, and the backward pass therefore runs the
plain barycentric gradient kernel (no derivative-gradient propagation into
positions). -/
theorem rasterize_output_db_false_downgrade (glctx : RasterizeGLContext)
    (pos tri : Tensor) (resolution : List Int) (ranges : Option Tensor)
    (grad_db : Bool) (out dy ddb : Tensor)
    (h : glctx.output_db = false) :
    (rasterize glctx pos tri resolution ranges grad_db).grad_db = false ∧
    rasterize_backward
        ⟨pos, tri, out,
          (rasterize glctx pos tri resolution ranges grad_db).grad_db⟩
        dy ddb =
      ⟨none, some (GradTensor.pluginRastGrad pos tri out dy),
        none, none, none, none⟩ := by
  have h1 : (rasterize glctx pos tri resolution ranges grad_db).grad_db =
      false := by
    simp [rasterize, h]
  refine ⟨h1, ?_⟩
  rw [h1]
  rfl

/-- Witness for C4 at a concrete input with `grad_db = True`. -/
theorem rasterize_output_db_false_downgrade_witness :
    (rasterize ⟨false, CtxMode.automatic⟩ ⟨0⟩ ⟨1⟩ [4, 4] none true).grad_db =
      false ∧
    rasterize_backward
        ⟨⟨0⟩, ⟨1⟩, ⟨2⟩,
          (rasterize ⟨false, CtxMode.automatic⟩ ⟨0⟩ ⟨1⟩ [4, 4] none
            true).grad_db⟩ ⟨3⟩ ⟨4⟩ =
      ⟨none, some (GradTensor.pluginRastGrad ⟨0⟩ ⟨1⟩ ⟨2⟩ ⟨3⟩),
        none, none, none, none⟩ :=
  rasterize_output_db_false_downgrade ⟨false, CtxMode.automatic⟩ ⟨0⟩ ⟨1⟩
    [4, 4] none true ⟨2⟩ ⟨3⟩ ⟨4⟩ rfl

/-- C5: `interpolate` applies the derivative-output variant exactly when a
nonempty attribute selection (the string `all` or a nonempty index list)
is supplied together with a `rast_db` tensor; with a nonempty selection
and no `rast_db` the call fails; with no selection (absent or the empty
list) the plain variant is applied regardless of `rast_db`. -/
theorem interpolate_variant_selection (attr rast tri : Tensor)
    (rast_db : Option Tensor) (da : DiffAttrs) :
    ((∃ r, interpolate attr rast tri rast_db da = Except.ok r ∧
        r.isDa = true) ↔
      ((da = DiffAttrs.all ∨ ∃ l, da = DiffAttrs.list l ∧ l ≠ []) ∧
        rast_db.isSome = true)) ∧
    ((da = DiffAttrs.none ∨ da = DiffAttrs.list []) →
      interpolate attr rast tri rast_db da =
        Except.ok (InterpCall.basic attr rast tri)) ∧
    ((da = DiffAttrs.all ∨ ∃ l, da = DiffAttrs.list l ∧ l ≠ []) →
      rast_db = none →
      interpolate attr rast tri rast_db da =
        Except.error "interpolate: assert isinstance rast_db torch.Tensor") := by
  cases da with
  | none =>
      cases rast_db <;>
        simp [interpolate, sanitizeDiffAttrs, diffAttrsTruthy,
          InterpCall.isDa]
  | all =>
      cases rast_db <;>
        simp [interpolate, sanitizeDiffAttrs, diffAttrsTruthy,
          InterpCall.isDa]
  | list l =>
      cases l with
      | nil =>
          cases rast_db <;>
            simp [interpolate, sanitizeDiffAttrs, diffAttrsTruthy,
              InterpCall.isDa]
      | cons x xs =>
          cases rast_db <;>
            simp [interpolate, sanitizeDiffAttrs, diffAttrsTruthy,
              InterpCall.isDa]

/-- Witness for C5: the no-selection implication at a concrete input. -/
theorem interpolate_variant_selection_witness :
    interpolate ⟨0⟩ ⟨1⟩ ⟨2⟩ none DiffAttrs.none =
      Except.ok (InterpCall.basic ⟨0⟩ ⟨1⟩ ⟨2⟩) :=
  (interpolate_variant_selection ⟨0⟩ ⟨1⟩ ⟨2⟩ none DiffAttrs.none).2.1
    (Or.inl rfl)

/-- C8: with a mipmap filter mode (explicit `linear-mipmap-nearest` or
`linear-mipmap-linear`, or `auto` with a supplied `uv_da` slot) and
`uv_da` not a tensor, `texture` fails: no stub is applied, so no pyramid
is constructed and no sampling happens — in particular also when
`max_mip_level = 0` would have degraded the mode to `linear`. -/
theorem texture_mip_filter_requires_uv_da (tex uv : Tensor)
    (uv_da : Option PyObj) (mip : Option TextureMipWrapper)
    (fm : FilterMode) (bm : BoundaryMode) (mml : Option Int)
    (hm : fm = FilterMode.linearMipmapNearest ∨
          fm = FilterMode.linearMipmapLinear ∨
          (fm = FilterMode.auto ∧ uv_da.isSome = true))
    (ht : isTensorOpt uv_da = false) :
    isErr (texture tex uv uv_da mip fm bm mml) = true := by
  have hfm : (resolve_auto fm uv_da).hasMipmapSubstr = true := by
    rcases hm with h | h | ⟨h, h2⟩
    · subst h; simp [resolve_auto, FilterMode.hasMipmapSubstr]
    · subst h; simp [resolve_auto, FilterMode.hasMipmapSubstr]
    · subst h; simp [resolve_auto, FilterMode.hasMipmapSubstr, h2]
  cases hs : sanitize_max_mip_level mml with
  | error e => simp [texture, hs, isErr]
  | ok v => simp [texture, texture_core, hs, hfm, ht, isErr]

/-- Witness for C8: explicit mipmap mode, `uv_da = None`,
`max_mip_level = 0`. -/
theorem texture_mip_filter_requires_uv_da_witness :
    isErr (texture ⟨0⟩ ⟨1⟩ none none FilterMode.linearMipmapNearest
      BoundaryMode.wrap (some 0)) = true :=
  texture_mip_filter_requires_uv_da ⟨0⟩ ⟨1⟩ none none
    FilterMode.linearMipmapNearest BoundaryMode.wrap (some 0)
    (Or.inl rfl) rfl

/-- Helper for C3: `texture_core` does not distinguish a caller-supplied
pyramid equal to the transiently constructed one from constructing it
itself. -/
theorem texture_core_mip_arg (tex uv : Tensor) (uv_da : Option PyObj)
    (fm1 : FilterMode) (bm : BoundaryMode) (v : Int) :
    texture_core tex uv uv_da
        (some (plugin_texture_construct_mip tex v bm.isCube)) fm1 bm v =
      texture_core tex uv uv_da none fm1 bm v := by
  cases fm1 <;> by_cases hv : v = 0 <;>
    simp [texture_core, FilterMode.hasMipmapSubstr, filterEnum, hv]

/-- C3: `texture` called with the precomputed pyramid returned by
`texture_construct_mip(tex, max_mip_level, cube_mode)` (with the cube flag
matching the boundary mode) makes the same call as `texture` without a
precomputed pyramid, which constructs one transiently with the same level
cap and cube flag. -/
theorem texture_precomputed_mip_roundtrip (tex uv : Tensor)
    (uv_da : Option PyObj) (fm : FilterMode) (bm : BoundaryMode)
    (mml : Option Int) (m : TextureMipWrapper)
    (h : texture_construct_mip tex mml bm.isCube = Except.ok m) :
    texture tex uv uv_da (some m) fm bm mml =
      texture tex uv uv_da none fm bm mml := by
  cases hs : sanitize_max_mip_level mml with
  | error e => simp [texture_construct_mip, hs] at h
  | ok v =>
      simp only [texture_construct_mip, hs, Except.ok.injEq] at h
      subst h
      simp only [texture, hs]
      exact texture_core_mip_arg tex uv uv_da (resolve_auto fm uv_da) bm v

/-- Witness for C3 at a concrete input. -/
theorem texture_precomputed_mip_roundtrip_witness :
    texture ⟨0⟩ ⟨1⟩ (some (PyObj.tensor ⟨2⟩)) (some ⟨⟨0⟩, 2, false⟩)
        FilterMode.linearMipmapLinear BoundaryMode.wrap (some 2) =
      texture ⟨0⟩ ⟨1⟩ (some (PyObj.tensor ⟨2⟩)) none
        FilterMode.linearMipmapLinear BoundaryMode.wrap (some 2) :=
  texture_precomputed_mip_roundtrip ⟨0⟩ ⟨1⟩ (some (PyObj.tensor ⟨2⟩))
    FilterMode.linearMipmapLinear BoundaryMode.wrap (some 2)
    ⟨⟨0⟩, 2, false⟩ rfl

/-- Helper for C10: with a mipmap mode and a supplied pyramid,
`texture_core` ignores the (nonzero) sanitized level cap. -/
theorem texture_core_mip_supplied_inert (tex uv : Tensor)
    (uv_da : Option PyObj) (m : TextureMipWrapper) (fm1 : FilterMode)
    (bm : BoundaryMode) (v w : Int)
    (hm : fm1.hasMipmapSubstr = true) (hv : v ≠ 0) (hw : w ≠ 0) :
    texture_core tex uv uv_da (some m) fm1 bm v =
      texture_core tex uv uv_da (some m) fm1 bm w := by
  cases fm1 <;>
    simp_all [texture_core, FilterMode.hasMipmapSubstr, filterEnum]

/-- C10: with a mipmap filter mode (after `auto` resolution) and a
caller-supplied precomputed mip handle, the `max_mip_level` argument does
not affect the resulting call, as long as it avoids the special value `0`
(and is otherwise valid: absent or positive). -/
theorem texture_max_mip_level_inert_with_supplied_mip (tex uv : Tensor)
    (uv_da : Option PyObj) (m : TextureMipWrapper) (fm : FilterMode)
    (bm : BoundaryMode) (mml1 mml2 : Option Int)
    (hm : (resolve_auto fm uv_da).hasMipmapSubstr = true)
    (h1 : mml1 = none ∨ ∃ v, mml1 = some v ∧ 0 ≤ v ∧ v ≠ 0)
    (h2 : mml2 = none ∨ ∃ v, mml2 = some v ∧ 0 ≤ v ∧ v ≠ 0) :
    texture tex uv uv_da (some m) fm bm mml1 =
      texture tex uv uv_da (some m) fm bm mml2 := by
  have key : ∀ mml : Option Int,
      (mml = none ∨ ∃ v, mml = some v ∧ 0 ≤ v ∧ v ≠ 0) →
      ∃ v, sanitize_max_mip_level mml = Except.ok v ∧ v ≠ 0 := by
    rintro mml (rfl | ⟨v, rfl, hv0, hvne⟩)
    · exact ⟨-1, rfl, by decide⟩
    · exact ⟨v, by simp [sanitize_max_mip_level, hv0], hvne⟩
  obtain ⟨v1, hs1, hv1⟩ := key mml1 h1
  obtain ⟨v2, hs2, hv2⟩ := key mml2 h2
  simp only [texture, hs1, hs2]
  exact texture_core_mip_supplied_inert tex uv uv_da m
    (resolve_auto fm uv_da) bm v1 v2 hm hv1 hv2

/-- Witness for C10 at concrete inputs (`max_mip_level` absent versus 3). -/
theorem texture_max_mip_level_inert_with_supplied_mip_witness :
    texture ⟨0⟩ ⟨1⟩ (some (PyObj.tensor ⟨2⟩)) (some ⟨⟨5⟩, -1, false⟩)
        FilterMode.linearMipmapLinear BoundaryMode.wrap none =
      texture ⟨0⟩ ⟨1⟩ (some (PyObj.tensor ⟨2⟩)) (some ⟨⟨5⟩, -1, false⟩)
        FilterMode.linearMipmapLinear BoundaryMode.wrap (some 3) :=
  texture_max_mip_level_inert_with_supplied_mip ⟨0⟩ ⟨1⟩
    (some (PyObj.tensor ⟨2⟩)) ⟨⟨5⟩, -1, false⟩
    FilterMode.linearMipmapLinear BoundaryMode.wrap none (some 3)
    (by decide) (Or.inl rfl)
    (Or.inr ⟨3, rfl, by decide, by decide⟩)
